import Mathlib

/-! Shallow embedding of `src/datastore/DataStore.py` (class `DataStore`).

The underlying storage engine (`diskcache.FanoutCache`) is an external
collaborator of the repository; it is modelled here as an association list
of entries per the engine contract the spec requires (get/set/add/delete/
membership/iteration/clear/evict, with per-entry expiration and tag).
Wall-clock time and on-disk layout are not modelled; expiration values are
carried as opaque `Option Nat` metadata, exactly as the code carries them.

Python values flowing through the code (key elements, stored values,
`None` defaults) are modelled by `PyVal`; Python exceptions by `PyErr`.
Python truthiness of the relevant values is modelled where the code relies
on it: `x or y`, `if cache and ...` (a `FanoutCache` has `__len__`, so an
empty cache is falsy, as is `None`), and a `0`/`None` expire is falsy.

Each wrapper method of `DataStore` that can call `self.close()` returns,
besides its result and the resulting store state, a `Bool` recording
whether `close()` was called on the taken exit path (the code has no
`try/finally`, so a raise skips the trailing `close()`).
-/

namespace Datastore

/-- Python values as they flow through this code: `None`, strings, numbers. -/
inductive PyVal where
  | none
  | str (s : String)
  | int (n : Int)
deriving DecidableEq

/-- Python exceptions raised by the code under `src/`. -/
inductive PyErr where
  | indexError
  | attributeError
  | typeError
  | keyError (k : String)
  | pathMismatch
deriving DecidableEq

/-- One engine entry: value plus expiration and tag metadata (spec section 6). -/
structure Entry where
  value : PyVal
  expire : Option Nat
  tag : Option String
deriving DecidableEq

/-- A `FanoutCache` handle: bound to a directory, a shard count and a timeout
at construction; holds the entries. A freshly constructed handle is modelled
with no visible entries (the shard layout is baked into the on-disk format,
so a handle with a new shard count does not see entries laid out under the
old one; the migration protocol exists precisely to copy them over). -/
structure Handle where
  directory : String
  shards : Nat
  timeout : Nat
  tag_index : Bool
  entries : List (String × Entry)
deriving DecidableEq

/-- Engine membership test (`key in cache`). -/
def engMem (h : Handle) (k : String) : Bool :=
  h.entries.any (fun p => p.1 == k)

/-- Engine lookup of the full entry (used by `get(..., expire_time=True, tag=True)`). -/
def engLookup (h : Handle) (k : String) : Option Entry :=
  List.lookup k h.entries

/-- Engine `get(key, default=d)`: the stored value, or the default when absent. -/
def engGet (h : Handle) (k : String) (d : PyVal) : PyVal :=
  match engLookup h k with
  | some e => e.value
  | none => d

/-- Engine `set(key, value, expire=e, tag=t)`: unconditional overwrite. -/
def engSet (h : Handle) (k : String) (v : PyVal) (e : Option Nat) (t : Option String) : Handle :=
  { h with entries := h.entries.filter (fun p => p.1 != k) ++ [(k, ⟨v, e, t⟩)] }

/-- Engine `add`: writes only if the key is absent, otherwise a no-op (spec section 6). -/
def engAdd (h : Handle) (k : String) (v : PyVal) (e : Option Nat) (t : Option String) : Handle :=
  if engMem h k then h else engSet h k v e t

/-- Engine `del cache[key]`. -/
def engDel (h : Handle) (k : String) : Handle :=
  { h with entries := h.entries.filter (fun p => p.1 != k) }

/-- Engine `clear()`. -/
def engClear (h : Handle) : Handle :=
  { h with entries := [] }

/-- Engine key iteration `list(cache)`. -/
def engKeys (h : Handle) : List String :=
  h.entries.map (fun p => p.1)

/-- Python truthiness of a `FanoutCache` (no `__bool__`, so `len(cache) > 0`);
`None` is modelled by an empty placeholder handle and is falsy the same way. -/
def handleTruthy (h : Handle) : Bool :=
  !h.entries.isEmpty

/-- Python `str.startswith`, on the character sequences. -/
def pyStartswith (s p : String) : Bool :=
  p.data.isPrefixOf s.data

/-- Python `expire or self.expire`: `None` and `0` are falsy. -/
def pyOrExpire (e d : Option Nat) : Option Nat :=
  match e with
  | none => d
  | some 0 => d
  | some (n + 1) => some (n + 1)

/-- Python `dict(pairs)`: first-insertion order, last value wins. -/
def pyDict (l : List (String × PyVal)) : List (String × PyVal) :=
  l.foldl
    (fun acc p =>
      if acc.any (fun q => q.1 == p.1) then
        acc.map (fun q => if q.1 == p.1 then (q.1, p.2) else q)
      else acc ++ [p])
    []

/-- The `elts` computation of `DataStore.makey`:
`elts = [] if not self.name or args[0].startswith(self.name+self.delim) else [self.name,]`
followed by `elts.extend(args)`. With a non-empty name, an empty `args` raises
`IndexError` at `args[0]`, and a non-string first element raises
`AttributeError` at `.startswith`. -/
def makeyElts (name delim : String) (args : List PyVal) : Except PyErr (List PyVal) :=
  if name = "" then .ok args
  else
    match args with
    | [] => .error .indexError
    | .str s :: rest =>
        if pyStartswith s (name ++ delim) then .ok (.str s :: rest)
        else .ok (.str name :: .str s :: rest)
    | _ :: _ => .error .attributeError

/-- Python `delim.join(elts)`: raises `TypeError` unless every element is a string. -/
def pyJoinStrs (l : List PyVal) : Except PyErr (List String) :=
  match l with
  | [] => .ok []
  | .str s :: rest => (pyJoinStrs rest).map (fun r => s :: r)
  | _ :: _ => .error .typeError

/-- Python `delim.join(elts)` as a string result. -/
def pyJoin (delim : String) (l : List PyVal) : Except PyErr String :=
  (pyJoinStrs l).map (fun strs => String.intercalate delim strs)

/-- Model of `DataStore.makey(*args)` with `as_tuple=False`: build `elts`, then join. -/
def makey (name delim : String) (args : List PyVal) : Except PyErr String :=
  (makeyElts name delim args).bind (pyJoin delim)

/-- The `DataStore` object: class attributes `name`/`delim`, the `__init__`
attributes, and the live handle `self.cache`. The initial `self.cache = None`
is modelled by an empty placeholder handle, which has the same (falsy)
truthiness as `None` everywhere the code tests `if self.cache`. -/
structure DataStore where
  name : String
  delim : String
  cache_path : String
  shards : Nat
  timeout : Nat
  expire : Option Nat
  tag_index : Bool
  cache : Handle
deriving DecidableEq

/-- A key argument to get/set/add/delete: the code branches on
`isinstance(key, (tuple, list))` and runs `makey` on sequences, using a
plain string key as-is. -/
inductive PyKey where
  | s (k : String)
  | seq (elts : List PyVal)
deriving DecidableEq

/-- The `isinstance` branch at the top of get/set/add/delete. -/
def resolveKey (ds : DataStore) (key : PyKey) : Except PyErr String :=
  match key with
  | .s k => .ok k
  | .seq elts => makey ds.name ds.delim elts

/-- Model of `DataStore.get(key, default=d, close=close)` (the `read`/`expire_time`/
`tag`/`retry` flags keep their defaults: value-only result). Returns the
value (or the raised error) and whether `close()` ran on that path. -/
def DataStore.get (ds : DataStore) (key : PyKey) (d : PyVal) (close : Bool) :
    (Except PyErr PyVal) × Bool :=
  match resolveKey ds key with
  | .error e => (.error e, false)
  | .ok k => (.ok (engGet ds.cache k d), close)

/-- Model of `DataStore.set(key, value, expire=e, tag=t, close=close)`:
`expire = expire or self.expire`, then an unconditional engine write.
Returns the outcome, the resulting store, and whether `close()` ran. -/
def DataStore.set (ds : DataStore) (key : PyKey) (v : PyVal) (e : Option Nat)
    (t : Option String) (close : Bool) : (Except PyErr Unit) × DataStore × Bool :=
  match resolveKey ds key with
  | .error err => (.error err, ds, false)
  | .ok k => (.ok (), { ds with cache := engSet ds.cache k v (pyOrExpire e ds.expire) t }, close)

/-- Model of `DataStore.add(key, value, expire=e, tag=t, close=close)`: same shape as
`set`, but the engine `add` writes only when the key is absent. -/
def DataStore.add (ds : DataStore) (key : PyKey) (v : PyVal) (e : Option Nat)
    (t : Option String) (close : Bool) : (Except PyErr Unit) × DataStore × Bool :=
  match resolveKey ds key with
  | .error err => (.error err, ds, false)
  | .ok k => (.ok (), { ds with cache := engAdd ds.cache k v (pyOrExpire e ds.expire) t }, close)

/-- Model of `DataStore.delete(key, close=close)`: raises `KeyError(key)` when the key
is not in the cache (before any mutation and before any `close()`), else
deletes and then closes when asked. -/
def DataStore.delete (ds : DataStore) (key : PyKey) (close : Bool) :
    (Except PyErr Unit) × DataStore × Bool :=
  match resolveKey ds key with
  | .error err => (.error err, ds, false)
  | .ok k =>
      if engMem ds.cache k then (.ok (), { ds with cache := engDel ds.cache k }, close)
      else (.error (.keyError k), ds, false)

/-- Model of `DataStore.items(as_dict)`: pairs `(key, self.get(key, close=False))` for
every key of the handle, then `close()`, then optional dict conversion. -/
def DataStore.items (ds : DataStore) (as_dict : Bool) : List (String × PyVal) × Bool :=
  let prs := (engKeys ds.cache).map (fun k => (k, engGet ds.cache k PyVal.none))
  ((if as_dict then pyDict prs else prs), true)

/-- The `match_elts` argument of `get_startswith`: a list/tuple of elements,
or a single value (the code accepts `str`, `int`, `float` singly and returns
`[]` for any other type, e.g. `None`). -/
inductive MatchElts where
  | seq (l : List PyVal)
  | single (v : PyVal)
deriving DecidableEq

/-- Result of `get_startswith`: key-value pairs, or keys when `keys_only`. -/
inductive GSResult where
  | pairs (l : List (String × PyVal))
  | keyList (l : List String)
deriving DecidableEq

/-- Model of `DataStore.get_startswith(match_elts, match_part, as_dict, keys_only,
suffix_keys)`: build `match_key` with `makey`, append `delim` unless
`match_part`, scan every key of the handle with `startswith`, optionally
strip the matched front (`suffix_keys`), collect keys or pairs, `close()`,
then optional dict conversion. The early `return []` for an unsupported
`match_elts` type happens before any `close()`. -/
def DataStore.get_startswith (ds : DataStore) (match_elts : MatchElts)
    (match_part as_dict keys_only suffix_keys : Bool) :
    (Except PyErr GSResult) × Bool :=
  let mk : Except PyErr (Option String) :=
    match match_elts with
    | .seq l => (makey ds.name ds.delim l).map some
    | .single (.str s) => (makey ds.name ds.delim [.str s]).map some
    | .single (.int n) => (makey ds.name ds.delim [.int n]).map some
    | .single .none => .ok none
  match mk with
  | .error e => (.error e, false)
  | .ok none => ((.ok (if keys_only then .keyList [] else .pairs [])), false)
  | .ok (some mkey) =>
      let match_key := if match_part then mkey else mkey ++ ds.delim
      let matched := (engKeys ds.cache).filter (fun k => pyStartswith k match_key)
      if keys_only then
        (.ok (.keyList (matched.map (fun k => if suffix_keys then k.drop match_key.length else k))), true)
      else
        let prs := matched.map (fun k =>
          ((if suffix_keys then k.drop match_key.length else k), engGet ds.cache k PyVal.none))
        (.ok (.pairs (if as_dict then pyDict prs else prs)), true)

/-- Model of `DataStore.clear(close)`: engine `clear()`, then close when asked. -/
def DataStore.clear (ds : DataStore) (close : Bool) : DataStore × Bool :=
  ({ ds with cache := engClear ds.cache }, close)

/-- Model of `DataStore.clear_keys(startswith, close)`: delete every key returned by
`get_startswith(startswith, keys_only=True)`, then close. An error raised
inside `get_startswith` propagates before any deletion or close. -/
def DataStore.clear_keys (ds : DataStore) (sw : MatchElts) (close : Bool) :
    (Except PyErr Unit) × DataStore × Bool :=
  match ds.get_startswith sw false false true false with
  | (.error e, _) => (.error e, ds, false)
  | (.ok r, _) =>
      let ks := match r with
        | .keyList l => l
        | .pairs _ => []
      (.ok (),
       { ds with cache := { ds.cache with entries := ds.cache.entries.filter (fun p => !ks.contains p.1) } },
       close)

/-- Model of `DataStore.evict(tag)`: engine evict (remove entries carrying the tag,
returning how many), then always `close()`. -/
def DataStore.evict (ds : DataStore) (tag : String) : Nat × DataStore × Bool :=
  ((ds.cache.entries.filter (fun p => p.2.tag == some tag)).length,
   { ds with cache := { ds.cache with entries := ds.cache.entries.filter (fun p => !(p.2.tag == some tag)) } },
   true)

/-- Model of `DataStore.volume()` with the engine call abstracted as an arbitrary,
possibly raising, function of the handle (the engine is external): the code
is `volume = self.cache.volume(); self.close(); return volume`, so a raise
from the engine call skips the `close()`. -/
def DataStore.volumeWrap (ds : DataStore) (engVolume : Handle → Except PyErr Nat) :
    (Except PyErr Nat) × Bool :=
  match engVolume ds.cache with
  | .error e => (.error e, false)
  | .ok v => (.ok v, true)

/-- The body of the copy loop of `DataStore.copy_cache`: read the triple with
`src_cache.get(key, expire_time=True, tag=True)` (default `None` on a miss)
and write it into the destination with `dst_cache.set`. -/
def copyStep (src : Handle) (d : Handle) (k : String) : Handle :=
  match engLookup src k with
  | some e => engSet d k e.value e.expire e.tag
  | none => engSet d k PyVal.none none none

/-- Model of `DataStore.copy_cache(src_cache, dst_cache)`: clear the destination, then
copy every key of the source. -/
def copy_cache (src_cache dst_cache : Handle) : Handle :=
  (engKeys src_cache).foldl (copyStep src_cache) (engClear dst_cache)

/-- Model of `DataStore.init_cache(shards=0, timeout=0, cache=None)`:
`shards = shards or self.shards`; `timeout = timeout or self.timeout`;
raise if a truthy supplied cache points at another path
(`if cache and cache.directory != self.cache_path`);
`cache = cache or FanoutCache(self.cache_path, shards=shards,
timeout=timeout, tag_index=self.tag_index)` — a falsy (absent or empty)
supplied cache is replaced by a fresh handle;
`if self.cache and shards != self.shards: copy_cache(self.cache, cache)`;
finally `self.cache = cache` and `self.close()` (no effect on the modelled
state). Note the comparison is against the attribute `self.shards`, which
this method never updates. -/
def DataStore.init_cache (ds : DataStore) (shards timeout : Nat) (cache : Option Handle) :
    Except PyErr DataStore :=
  let shards2 := if shards == 0 then ds.shards else shards
  let timeout2 := if timeout == 0 then ds.timeout else timeout
  let pathConflict := match cache with
    | some c => handleTruthy c && (c.directory != ds.cache_path)
    | none => false
  if pathConflict then .error .pathMismatch
  else
    let newCache := match cache with
      | some c =>
          if handleTruthy c then c
          else Handle.mk ds.cache_path shards2 timeout2 ds.tag_index []
      | none => Handle.mk ds.cache_path shards2 timeout2 ds.tag_index []
    let newCache2 :=
      if handleTruthy ds.cache && (shards2 != ds.shards) then copy_cache ds.cache newCache
      else newCache
    .ok { ds with cache := newCache2 }

/-- Model of `DataStore.__init__(cache_path, shards, timeout, expire, tag_index,
init_cache)`: store the attributes, set `self.cache = None` (empty
placeholder handle here), and run `self.init_cache()` unless told not to. -/
def mkDataStore (name delim cache_path : String) (shards timeout : Nat)
    (expire : Option Nat) (tag_index do_init : Bool) : Except PyErr DataStore :=
  let ds0 : DataStore :=
    ⟨name, delim, cache_path, shards, timeout, expire, tag_index,
     Handle.mk cache_path 0 0 tag_index []⟩
  if do_init then ds0.init_cache 0 0 none else .ok ds0


/-! Association-list and engine lemmas used by the claim proofs below. -/

/-- Overwriting association-list update: looking up the written key finds the new entry. -/
theorem lookup_filter_append (l : List (String × Entry)) (k : String) (x : Entry) :
    List.lookup k (l.filter (fun p => p.1 != k) ++ [(k, x)]) = some x := by
  induction l with
  | nil => simp [List.lookup]
  | cons a l ih =>
      cases a with
      | mk a1 a2 =>
          by_cases h : a1 = k
          · simpa [List.filter_cons, h] using ih
          · have hk : (k == a1) = false := by
              simp only [beq_eq_false_iff_ne]
              exact fun e => h e.symm
            simp only [List.filter_cons]
            rw [if_pos (by simp [bne_iff_ne, h])]
            simp only [List.cons_append, List.lookup, hk]
            exact ih

/-- A key on which no pair matches is not found by lookup. -/
theorem lookup_eq_none_of_any_false (l : List (String × Entry)) (k : String)
    (hm : l.any (fun p => p.1 == k) = false) : List.lookup k l = none := by
  induction l with
  | nil => rfl
  | cons a l ih =>
      simp only [List.any_cons, Bool.or_eq_false_iff] at hm
      cases a with
      | mk a1 a2 =>
          have hk : (k == a1) = false := by
            simp only [beq_eq_false_iff_ne] at hm ⊢
            exact fun e => hm.1 e.symm
          simp only [List.lookup, hk]
          exact ih hm.2

/-- After filtering a key out, no pair with that key remains. -/
theorem any_filter_bne_eq_false (l : List (String × Entry)) (k : String) :
    (l.filter (fun p => p.1 != k)).any (fun p => p.1 == k) = false := by
  induction l with
  | nil => rfl
  | cons a l ih =>
      by_cases h : a.1 = k
      · simp [List.filter_cons, h, ih]
      · simp only [List.filter_cons]
        rw [if_pos (by simp [bne_iff_ne, h])]
        simp [List.any_cons, h, ih]

/-- A key is present after an engine `set` of that key. -/
theorem engMem_engSet (h : Handle) (k : String) (v : PyVal) (e : Option Nat)
    (t : Option String) : engMem (engSet h k v e t) k = true := by
  simp [engMem, engSet, List.any_append]

/-- Engine `set` stores exactly the given value, expiration and tag under the key. -/
theorem engLookup_engSet (h : Handle) (k : String) (v : PyVal) (e : Option Nat)
    (t : Option String) : engLookup (engSet h k v e t) k = some ⟨v, e, t⟩ := by
  simp only [engSet, engLookup]
  exact lookup_filter_append h.entries k ⟨v, e, t⟩

/-- Engine `get` after `set` of the same key returns the written value. -/
theorem engGet_engSet (h : Handle) (k : String) (v : PyVal) (e : Option Nat)
    (t : Option String) (d : PyVal) : engGet (engSet h k v e t) k d = v := by
  simp [engGet, engLookup_engSet]

/-- A key is absent after an engine delete of that key. -/
theorem engMem_engDel (h : Handle) (k : String) : engMem (engDel h k) k = false := by
  simp only [engMem, engDel]
  exact any_filter_bne_eq_false h.entries k

/-- Engine `get` of an absent key returns the supplied default. -/
theorem engGet_default_of_absent (h : Handle) (k : String) (d : PyVal)
    (hm : engMem h k = false) : engGet h k d = d := by
  simp [engGet, engLookup, lookup_eq_none_of_any_false _ _ hm]

/-- One copy step never changes the destination handle's shard count. -/
theorem copyStep_shards (src d : Handle) (k : String) :
    (copyStep src d k).shards = d.shards := by
  unfold copyStep
  cases engLookup src k <;> rfl

/-- The whole copy loop never changes the destination handle's shard count. -/
theorem foldl_copyStep_shards (src : Handle) (ks : List String) (d : Handle) :
    (ks.foldl (copyStep src) d).shards = d.shards := by
  induction ks generalizing d with
  | nil => rfl
  | cons a ks ih => rw [List.foldl_cons, ih, copyStep_shards]

/-- Closed form of `init_cache` when no replacement handle is supplied. -/
theorem init_cache_none_eq (ds : DataStore) (s t : Nat) :
    ds.init_cache s t none = .ok { ds with cache :=
      (if (handleTruthy ds.cache && ((if s == 0 then ds.shards else s) != ds.shards))
       then copy_cache ds.cache (Handle.mk ds.cache_path (if s == 0 then ds.shards else s)
         (if t == 0 then ds.timeout else t) ds.tag_index [])
       else Handle.mk ds.cache_path (if s == 0 then ds.shards else s)
         (if t == 0 then ds.timeout else t) ds.tag_index []) } := rfl

/-! Concrete stores used by the concrete theorems and witnesses below. -/

def cacheA : Handle :=
  ⟨"cache/data", 8, 1, false,
   [("a", ⟨.int 1, some 10, some "t1"⟩), ("b", ⟨.int 2, some 20, some "t2"⟩)]⟩

def storeA : DataStore := ⟨"", ":", "cache/data", 8, 1, none, false, cacheA⟩

def storeA4 : DataStore :=
  { storeA with cache := ⟨"cache/data", 4, 1, false, cacheA.entries⟩ }

def cacheCfg : Handle :=
  ⟨"cache/data", 8, 1, false,
   [("cfg:Job.Foo:a", ⟨.int 1, none, none⟩), ("cfg:Job.FooBar:b", ⟨.int 2, none, none⟩)]⟩

def storeCfg : DataStore := ⟨"cfg", ":", "cache/data", 8, 1, none, false, cacheCfg⟩

def storeEmpty : DataStore :=
  ⟨"", ":", "cache/data", 8, 1, none, false, ⟨"cache/data", 8, 1, false, []⟩⟩

def storeExp : DataStore := { storeEmpty with expire := some 5 }

/-! Claim theorems, counterexamples and witnesses. -/

/-- Claim C1 (migration fidelity), evaluated on a concrete two-entry store with
distinct expiration times and tags: the first reshard (8 to 4 shards) copies
every entry with value, expiration and tag intact and keeps the entry count,
but the second reshard back to 8 shards is NOT lossless: `init_cache` compares
the requested count against the stale `shards` attribute (still 8), skips the
copy migration, and the live handle ends up with no entries. -/
theorem reshard_roundtrip_loses_entries :
    storeA.init_cache 4 0 none = .ok storeA4 ∧
    storeA4.cache.entries = storeA.cache.entries ∧
    storeA4.cache.shards = 4 ∧
    storeA.cache.entries.length = 2 ∧
    (storeA4.init_cache 8 0 none).map (fun d => d.cache.entries) = .ok [] :=
  ⟨rfl, rfl, rfl, rfl, rfl⟩

/-- Claim C2, counterexample: `delete` of an absent key (default close
behavior) raises and returns on an exit path on which the handle was not
closed, refuting "the handle is closed on every exit path". -/
theorem delete_error_path_skips_close :
    storeEmpty.delete (.s "k") true = (.error (.keyError "k"), storeEmpty, false) ∧
    (storeEmpty.delete (.s "k") true).2.2 = false :=
  ⟨rfl, rfl⟩

/-- Claim C2 (amended): with the default close behavior each operation closes
the handle on its normal return path, but raising exit paths do not close it:
an absent-key `delete`, a key-encoding error inside `get`, and an engine raise
(shown for the `volume` pass-through) all propagate with the handle unclosed,
since the code has no `try/finally`. -/
theorem close_called_only_on_normal_paths (ds : DataStore) (k : String) (d v : PyVal)
    (e : Option Nat) (t : Option String) (eng : Handle → Except PyErr Nat) :
    (ds.get (.s k) d true).2 = true ∧
    (ds.set (.s k) v e t true).2.2 = true ∧
    (ds.add (.s k) v e t true).2.2 = true ∧
    (engMem ds.cache k = true → (ds.delete (.s k) true).2.2 = true) ∧
    (engMem ds.cache k = false → ds.delete (.s k) true = (.error (.keyError k), ds, false)) ∧
    (ds.clear true).2 = true ∧
    (ds.items false).2 = true ∧
    (ds.evict k).2.2 = true ∧
    (ds.name ≠ "" → (ds.get (.seq []) d true).2 = false) ∧
    (∀ n, eng ds.cache = .ok n → (ds.volumeWrap eng).2 = true) ∧
    (∀ err, eng ds.cache = .error err → (ds.volumeWrap eng).2 = false) := by
  refine ⟨rfl, rfl, rfl, fun hm => ?_, fun hm => ?_, rfl, rfl, rfl, fun hn => ?_,
    fun n hok => ?_, fun err herr => ?_⟩
  · simp [DataStore.delete, resolveKey, hm]
  · simp [DataStore.delete, resolveKey, hm]
  · simp [DataStore.get, resolveKey, makey, makeyElts, hn, Except.bind]
  · simp [DataStore.volumeWrap, hok]
  · simp [DataStore.volumeWrap, herr]

/-- Witness for claim C2's amended theorem at a concrete store and keys. -/
theorem close_called_only_on_normal_paths_witness :
    (storeA.delete (.s "a") true).2.2 = true ∧
    (storeA.delete (.s "z") true).2.2 = false := by
  constructor
  · exact (close_called_only_on_normal_paths storeA "a" PyVal.none PyVal.none none none
      (fun _ => .ok 0)).2.2.2.1 (by decide)
  · have h := (close_called_only_on_normal_paths storeA "z" PyVal.none PyVal.none none none
      (fun _ => .ok 0)).2.2.2.2.1 (by decide)
    rw [h]

/-- Claim C3 (exact-boundary prefix correctness): for namespace name `cfg`
with delimiter `:` over exactly the keys `cfg:Job.Foo:a` and `cfg:Job.FooBar:b`,
`get_startswith` for `["Job.Foo"]` with `match_part=False` returns only the
first key, and with `match_part=True` returns both. -/
theorem exact_boundary_query_eval :
    storeCfg.get_startswith (.seq [.str "Job.Foo"]) false false false false
      = (.ok (.pairs [("cfg:Job.Foo:a", .int 1)]), true) ∧
    storeCfg.get_startswith (.seq [.str "Job.Foo"]) true false false false
      = (.ok (.pairs [("cfg:Job.Foo:a", .int 1), ("cfg:Job.FooBar:b", .int 2)]), true) :=
  ⟨rfl, rfl⟩

/-- Claim C4, counterexample: with an empty namespace name (the base-class
default), `makey` with zero elements raises nothing and returns the empty
string, refuting "for every namespace configuration ... raises". -/
theorem makey_no_args_empty_name_returns_empty :
    makey "" ":" [] = .ok "" :=
  rfl

/-- Claim C4 (amended): with a non-empty namespace name, `makey` with zero
elements raises — an `IndexError` at `args[0]` (the spec's `InvalidKeyError`);
with an empty name it silently returns the empty string. -/
theorem makey_no_args_raises_when_named (name delim : String) (h : name ≠ "") :
    makey name delim [] = .error .indexError := by
  simp [makey, makeyElts, h, Except.bind]

/-- Witness for claim C4's amended theorem at namespace name `cfg`. -/
theorem makey_no_args_raises_when_named_witness :
    makey "cfg" ":" [] = .error .indexError :=
  makey_no_args_raises_when_named "cfg" ":" (by decide)

/-- Claim C5: key encoding does NOT succeed on numeric elements. With a
non-empty name `makey` raises `AttributeError` at `args[0].startswith`; with
an empty name the join raises `TypeError`; and `get_startswith` on a single
`int` propagates the error even though its docstring accepts `int`/`float`. -/
theorem makey_numeric_elements_raise :
    makey "cfg" ":" [.int 5] = .error .attributeError ∧
    makey "" ":" [.int 5] = .error .typeError ∧
    (storeCfg.get_startswith (.single (.int 5)) false false false false).1
      = .error .attributeError :=
  ⟨rfl, rfl, rfl⟩

/-- Claim C6: `delete(key)` errors with `KeyError(key)` exactly when the key
is absent, and on that error path the returned store is unchanged; when the
key is present it is removed; `get(key, default=d)` on an absent key returns
`d` and never raises. -/
theorem delete_absent_iff_and_get_default (ds : DataStore) (k : String) (d : PyVal) :
    ((ds.delete (.s k) true).1 = .error (.keyError k) ↔ engMem ds.cache k = false) ∧
    (engMem ds.cache k = false →
       ds.delete (.s k) true = (.error (.keyError k), ds, false) ∧
       ds.get (.s k) d true = (.ok d, true)) ∧
    (engMem ds.cache k = true →
       (ds.delete (.s k) true).2.1 = { ds with cache := engDel ds.cache k } ∧
       engMem ((ds.delete (.s k) true).2.1).cache k = false) := by
  refine ⟨⟨fun he => ?_, fun hm => ?_⟩, fun hm => ⟨?_, ?_⟩, fun hm => ⟨?_, ?_⟩⟩
  · cases hm : engMem ds.cache k
    · rfl
    · simp [DataStore.delete, resolveKey, hm] at he
  · simp [DataStore.delete, resolveKey, hm]
  · simp [DataStore.delete, resolveKey, hm]
  · simp [DataStore.get, resolveKey, engGet_default_of_absent ds.cache k d hm]
  · simp [DataStore.delete, resolveKey, hm]
  · simp only [DataStore.delete, resolveKey, hm, if_true]
    exact engMem_engDel ds.cache k

/-- Witness for claim C6's theorem at a concrete store, present and absent keys. -/
theorem delete_absent_iff_and_get_default_witness :
    (storeA.delete (.s "z") true).1 = .error (.keyError "z") ∧
    storeA.get (.s "z") (.int 7) true = (.ok (.int 7), true) ∧
    engMem ((storeA.delete (.s "a") true).2.1).cache "a" = false := by
  refine ⟨?_, ?_, ?_⟩
  · exact ((delete_absent_iff_and_get_default storeA "z" (.int 7)).1).2 (by decide)
  · exact ((delete_absent_iff_and_get_default storeA "z" (.int 7)).2.1 (by decide)).2
  · exact ((delete_absent_iff_and_get_default storeA "a" (.int 7)).2.2 (by decide)).2

/-- Claim C7 (add vs set): starting from a store where `k` is absent,
`add(k, v1)` then `add(k, v2)` leaves value `v1` (the second add is a
non-raising no-op), while `set(k, v1)` then `set(k, v2)` leaves `v2`. -/
theorem add_then_add_vs_set_then_set (ds : DataStore) (k : String) (v1 v2 : PyVal)
    (e1 e2 : Option Nat) (t1 t2 : Option String) :
    (engMem ds.cache k = false →
       engGet ((((ds.add (.s k) v1 e1 t1 true).2.1).add (.s k) v2 e2 t2 true).2.1).cache
         k PyVal.none = v1) ∧
    engGet ((((ds.set (.s k) v1 e1 t1 true).2.1).set (.s k) v2 e2 t2 true).2.1).cache
      k PyVal.none = v2 := by
  constructor
  · intro hm
    simp only [DataStore.add, resolveKey]
    rw [show engAdd ds.cache k v1 (pyOrExpire e1 ds.expire) t1
        = engSet ds.cache k v1 (pyOrExpire e1 ds.expire) t1 by simp [engAdd, hm]]
    rw [show engAdd (engSet ds.cache k v1 (pyOrExpire e1 ds.expire) t1) k v2
        (pyOrExpire e2 ds.expire) t2
        = engSet ds.cache k v1 (pyOrExpire e1 ds.expire) t1 by simp [engAdd, engMem_engSet]]
    exact engGet_engSet ds.cache k v1 (pyOrExpire e1 ds.expire) t1 PyVal.none
  · simp only [DataStore.set, resolveKey]
    exact engGet_engSet _ k v2 (pyOrExpire e2 ds.expire) t2 PyVal.none

/-- Witness for claim C7's theorem on the empty store with concrete values. -/
theorem add_then_add_vs_set_then_set_witness :
    engGet ((((storeEmpty.add (.s "k") (.int 1) none none true).2.1).add (.s "k")
      (.int 2) none none true).2.1).cache "k" PyVal.none = .int 1 ∧
    engGet ((((storeEmpty.set (.s "k") (.int 1) none none true).2.1).set (.s "k")
      (.int 2) none none true).2.1).cache "k" PyVal.none = .int 2 :=
  ⟨(add_then_add_vs_set_then_set storeEmpty "k" (.int 1) (.int 2) none none none none).1
      (by decide),
   (add_then_add_vs_set_then_set storeEmpty "k" (.int 1) (.int 2) none none none none).2⟩

/-- Claim C8 (idempotent prefixing): with a non-empty name, an element
sequence whose first element already starts with `name + delim` is encoded
without prepending the name again, and re-encoding an already-encoded
physical key returns that key unchanged. -/
theorem makey_idempotent_on_prefixed (name delim s : String) (rest : List PyVal)
    (h1 : name ≠ "") (h2 : pyStartswith s (name ++ delim) = true) :
    makeyElts name delim (.str s :: rest) = .ok (.str s :: rest) ∧
    makey name delim [.str s] = .ok s := by
  constructor
  · simp [makeyElts, h1, h2]
  · have hone : String.intercalate delim [s] = s := rfl
    simp [makey, makeyElts, h1, h2, pyJoin, pyJoinStrs, Except.bind, Except.map, hone]

/-- Witness for claim C8's theorem on an already-encoded concrete key. -/
theorem makey_idempotent_on_prefixed_witness :
    makey "cfg" ":" [.str "cfg:Job.Foo:a"] = .ok "cfg:Job.Foo:a" :=
  (makey_idempotent_on_prefixed "cfg" ":" "cfg:Job.Foo:a" [] (by decide) (by decide)).2

/-- Claim C9, counterexample: on a store whose configured default expiration
is 5, `set` with the explicitly supplied ttl 0 stores expiration 5, not 0—the
code's `expire or self.expire` treats an explicit 0 as falsy. -/
theorem set_ttl_zero_uses_default :
    engLookup ((storeExp.set (.s "k") (.int 1) (some 0) none true).2.1).cache "k"
      = some ⟨.int 1, some 5, none⟩ ∧
    storeExp.expire = some 5 ∧
    ¬ engLookup ((storeExp.set (.s "k") (.int 1) (some 0) none true).2.1).cache "k"
      = some ⟨.int 1, some 0, none⟩ :=
  ⟨rfl, rfl, by decide⟩

/-- Claim C9 (amended): `set` with ttl `None` stores the namespace's default
expiration; an explicitly supplied nonzero ttl is stored exactly; an explicitly
supplied ttl of 0 is treated like `None` and falls back to the default. -/
theorem set_ttl_semantics (ds : DataStore) (k : String) (v : PyVal) (t : Option String) :
    (engLookup ((ds.set (.s k) v none t true).2.1).cache k = some ⟨v, ds.expire, t⟩) ∧
    (∀ n : Nat, n ≠ 0 →
       engLookup ((ds.set (.s k) v (some n) t true).2.1).cache k = some ⟨v, some n, t⟩) ∧
    (engLookup ((ds.set (.s k) v (some 0) t true).2.1).cache k = some ⟨v, ds.expire, t⟩) := by
  refine ⟨?_, fun n hn => ?_, ?_⟩
  · simp only [DataStore.set, resolveKey]
    exact engLookup_engSet ds.cache k v ds.expire t
  · simp only [DataStore.set, resolveKey]
    cases n with
    | zero => exact absurd rfl hn
    | succ m => exact engLookup_engSet ds.cache k v (some (m + 1)) t
  · simp only [DataStore.set, resolveKey]
    exact engLookup_engSet ds.cache k v ds.expire t

/-- Witness for claim C9's amended theorem at concrete ttl values. -/
theorem set_ttl_semantics_witness :
    engLookup ((storeExp.set (.s "k") (.int 1) none none true).2.1).cache "k"
      = some ⟨.int 1, some 5, none⟩ ∧
    engLookup ((storeExp.set (.s "k") (.int 1) (some 7) none true).2.1).cache "k"
      = some ⟨.int 1, some 7, none⟩ :=
  ⟨(set_ttl_semantics storeExp "k" (.int 1) none).1,
   (set_ttl_semantics storeExp "k" (.int 1) none).2.1 7 (by decide)⟩

/-- Claim C10 (frame effect): `init_cache` (with no replacement handle)
changes only the live cache reference: name, delim, cache_path, shards,
timeout, expire and tag_index keep their prior values, and after a reshard to
a different nonzero count the stored `shards` attribute no longer matches the
live handle's shard count. -/
theorem init_cache_frame (ds : DataStore) (s t : Nat) (ds' : DataStore)
    (h : ds.init_cache s t none = .ok ds') :
    ds'.name = ds.name ∧ ds'.delim = ds.delim ∧ ds'.cache_path = ds.cache_path ∧
    ds'.shards = ds.shards ∧ ds'.timeout = ds.timeout ∧ ds'.expire = ds.expire ∧
    ds'.tag_index = ds.tag_index ∧
    (s ≠ 0 → s ≠ ds.shards → ds'.cache.shards = s ∧ ds'.shards ≠ ds'.cache.shards) := by
  rw [init_cache_none_eq] at h
  simp only [Except.ok.injEq] at h
  subst h
  refine ⟨rfl, rfl, rfl, rfl, rfl, rfl, rfl, fun hs hneq => ?_⟩
  have hs2 : (s == 0) = false := by simp [hs]
  have hneq2 : (s != ds.shards) = true := by simp [bne_iff_ne, hneq]
  cases hb : handleTruthy ds.cache <;>
    simp [hb, hs2, hneq2, copy_cache, foldl_copyStep_shards, engClear] <;>
    omega

/-- Witness for claim C10's theorem: reshard the concrete store to 4 shards. -/
theorem init_cache_frame_witness :
    storeA4.shards = storeA.shards ∧ storeA4.cache.shards = 4 ∧
    storeA4.shards ≠ storeA4.cache.shards := by
  refine ⟨?_, ?_, ?_⟩
  · exact (init_cache_frame storeA 4 0 storeA4 rfl).2.2.2.1
  · exact ((init_cache_frame storeA 4 0 storeA4 rfl).2.2.2.2.2.2.2 (by decide) (by decide)).1
  · exact ((init_cache_frame storeA 4 0 storeA4 rfl).2.2.2.2.2.2.2 (by decide) (by decide)).2

end Datastore
